import Mathlib

/-!
Shallow embedding of the SIH Solver's Compass backend services
(`app/services/search_service.py`, `app/services/dashboard_service.py`,
`app/services/github_service.py`, models in `app/models.py`).

Modelling conventions:
* Python floats are modelled as exact rationals (`ℚ`).
* `datetime` values are modelled by their ISO strings; whether
  `datetime.fromisoformat` succeeds on a stored string is recorded as a
  boolean alongside the raw string.
* ChromaDB metadata values are modelled as strings (as written by the
  ingestion script).  The stored `technology_stack` metadata field is
  consumed only through `json.loads`, so it is modelled by the outcome of
  that call: the value is falsy (parse skipped), `json.loads` raises
  (`JSONDecodeError`/`TypeError`), or it parses to a JSON list of strings.
* Python dict/`Counter` objects with insertion-ordered iteration are
  modelled as association lists (`List (String × Nat)`).
* Python string primitives (`strip`, `lower`, `split`) are modelled by
  structural recursion over the character list of the string (the
  repository's data is ASCII), so that every definition evaluates inside
  the kernel.
-/

/-- Python `str.strip()`: drop leading and trailing whitespace. -/
def pyStrip (s : String) : String :=
  String.mk (((s.toList.dropWhile Char.isWhitespace).reverse.dropWhile Char.isWhitespace).reverse)

/-- Python `str.lower()` (ASCII data). -/
def pyLower (s : String) : String :=
  String.mk (s.toList.map Char.toLower)

/-- Split a character list at every occurrence of the separator. -/
def splitCharList (sep : Char) : List Char → List (List Char)
  | [] => [[]]
  | c :: rest =>
    match splitCharList sep rest with
    | [] => [[]]
    | g :: gs => if c = sep then [] :: g :: gs else (c :: g) :: gs

/-- Python `str.split(sep)` for a single-character separator (the code
only splits on a newline or a period). -/
def pySplitChar (s : String) (sep : Char) : List String :=
  (splitCharList sep s.toList).map String.mk

/-- Association-list lookup by string key (Python `dict.get`). -/
def lookupStr (k : String) : List (String × String) → Option String
  | [] => none
  | (k', v) :: rest => if k' = k then some v else lookupStr k rest

/-- ProblemStatement model (`app/models.py`).  `created_at` keeps the ISO
string of the parsed datetime. -/
structure ProblemStatement where
  id : String
  title : String
  organization : String
  category : String
  description : String
  technology_stack : List String
  difficulty_level : String
  created_at : Option String
deriving DecidableEq

/-- SearchResult model (`app/models.py`): a problem plus a similarity score. -/
structure SearchResult where
  problem : ProblemStatement
  similarity_score : ℚ
deriving DecidableEq

/-- Outcome of `json.loads` on the stored `technology_stack` metadata value
(`search_service.py` lines 84-90, `dashboard_service.py` lines 241-245):
the value is present but falsy (empty string: the parse is skipped), the
parse raises (`JSONDecodeError` or `TypeError` for a non-string value), or
the value parses to a JSON-encoded list of strings (the format written by
the ingestion script). -/
inductive TechStackField
  | falsy
  | parseError
  | strList (l : List String)
deriving DecidableEq

/-- Stored `created_at` metadata value: the raw string together with
whether `datetime.fromisoformat` succeeds on it. -/
structure CreatedAtField where
  raw : String
  parses : Bool
deriving DecidableEq

/-- Stored ChromaDB metadata for one record; `none` models an absent key
(`metadata.get(key, default)` falls back to the default). -/
structure Metadata where
  title : Option String
  organization : Option String
  category : Option String
  description : Option String
  technology_stack : Option TechStackField
  difficulty_level : Option String
  created_at : Option CreatedAtField
deriving DecidableEq

/-- Whether the `try` block of `SearchService._convert_metadata_to_problem`
raises.  With metadata values modelled as strings, the only representable
failure is `datetime.fromisoformat` raising on a present, truthy, malformed
`created_at` value (the other extractions are `dict.get` calls with string
defaults and the guarded `json.loads`, none of which can raise). -/
def extractionRaises (metadata : Metadata) : Bool :=
  match metadata.created_at with
  | some c => c.raw ≠ "" && !c.parses
  | none => false

/-- Distance → similarity conversion of the Result Mapper
(`search_service.py` line 113): `similarity_score = max(0.0, 1.0 - distance)`. -/
def similarityFromDistance (distance : ℚ) : ℚ :=
  max 0 (1 - distance)

/-- Embedding of `SearchService._convert_metadata_to_problem`
(`search_service.py` lines 81-132).  The `try` block parses the technology
stack (defaulting to `[]` on absence, falsiness or parse failure), extracts
the description (metadata field, else second line of the document text,
else empty), builds the `ProblemStatement` and attaches
`max(0, 1 - distance)` as similarity.  If the block raises, the `except`
branch returns a minimal fallback record with the raw document text as
description, an empty technology stack and `similarity_score = 0.0`. -/
def convertMetadataToProblem (docId : String) (metadata : Metadata)
    (document : String) (distance : ℚ) : SearchResult :=
  if extractionRaises metadata then
    { problem :=
        { id := docId
          title := metadata.title.getD "Unknown"
          organization := metadata.organization.getD "Unknown"
          category := metadata.category.getD "General"
          description := if document ≠ "" then document else ""
          technology_stack := []
          difficulty_level := "Medium"
          created_at := none }
      similarity_score := 0 }
  else
    let tech_stack : List String :=
      match metadata.technology_stack with
      | some (.strList l) => l
      | _ => []
    let description :=
      let d := metadata.description.getD ""
      if d = "" ∧ document ≠ "" then
        let lines := pySplitChar document '\n'
        if 2 ≤ lines.length then (lines.get? 1).getD "" else ""
      else d
    { problem :=
        { id := docId
          title := metadata.title.getD ""
          organization := metadata.organization.getD "Unknown"
          category := metadata.category.getD "General"
          description := description
          technology_stack := tech_stack
          difficulty_level := metadata.difficulty_level.getD "Medium"
          created_at :=
            match metadata.created_at with
            | some c => if c.raw ≠ "" then some c.raw else none
            | none => none }
      similarity_score := similarityFromDistance distance }

/-- One raw hit of a vector-store query: id, metadata, document text and
cosine distance (the four zipped streams of `search_service.py`
lines 172-178). -/
structure Hit where
  id : String
  metadata : Metadata
  document : String
  distance : ℚ
deriving DecidableEq

/-- Embedding of `SearchService.search` (`search_service.py` lines 134-187).
The external vector store is modelled by `queryStore query nResults`, the
hit list returned by `collection.query` for the embedded query with
`n_results = nResults`; the code requests `min(limit, 100)` neighbors and
maps each hit through the Result Mapper in the order the store returned
them. -/
def searchRun (queryStore : String → Nat → List Hit) (query : String)
    (limit : Nat) : List SearchResult :=
  (queryStore query (min limit 100)).map fun h =>
    convertMetadataToProblem h.id h.metadata h.document h.distance

/-- State of the lazily initialized `SearchService`: the `_initialized`
flag plus counters of the observable side effects (how many times the
sentence-transformer model was loaded and how many ChromaDB connections
were made). -/
structure SearchServiceState where
  initialized : Bool
  modelLoads : Nat
  storeConnections : Nat
deriving DecidableEq

/-- Embedding of `SearchService.initialize` (`search_service.py`
lines 35-55).  `loadOk` and `connectOk` are the environment: whether
`SentenceTransformer(...)` and `_connect_to_chromadb` would succeed if
attempted.  If already initialized the call returns at once; otherwise the
model is loaded, then the store connection is made, and only after both
succeed is `_initialized` set.  A raised `SearchServiceError` is returned
as `some message`; note that a model load that happened before a failed
connection persists in the state, as in the Python object. -/
def initializeService (loadOk connectOk : Bool) (s : SearchServiceState) :
    SearchServiceState × Option String :=
  if s.initialized then (s, none)
  else if !loadOk then (s, some "Search service initialization failed")
  else
    let s1 : SearchServiceState := { s with modelLoads := s.modelLoads + 1 }
    if !connectOk then (s1, some "Search service initialization failed")
    else ({ s1 with storeConnections := s1.storeConnections + 1, initialized := true }, none)

/-- One fetched catalog record as assembled by
`DashboardService._fetch_all_problem_data` (`dashboard_service.py`
lines 179-183): id, metadata and document text. -/
structure RecordData where
  id : String
  metadata : Metadata
  document : String
deriving DecidableEq

/-- Add `n` to the counter entry for key `k`, appending a new entry when
the key is absent — the association-list model of `counter[k] += n` on a
Python `Counter`/dict with insertion-ordered iteration. -/
def addCount : List (String × Nat) → String → Nat → List (String × Nat)
  | [], k, n => [(k, n)]
  | (k', v) :: rest, k, n =>
    if k' = k then (k', v + n) :: rest else (k', v) :: addCount rest k n

/-- Increment the counter entry for key `k` by one (`counter[k] += 1`). -/
def incrCount (m : List (String × Nat)) (k : String) : List (String × Nat) :=
  addCount m k 1

/-- Stable insertion (descending by count, ties keep existing order) used
to model Python's stable `sorted(..., key=count, reverse=True)` inside
`Counter.most_common`. -/
def insertByCountDesc (p : String × Nat) :
    List (String × Nat) → List (String × Nat)
  | [] => [p]
  | q :: rest => if q.2 ≤ p.2 then p :: q :: rest else q :: insertByCountDesc p rest

/-- Stable sort by descending count (`sorted(items, key=count, reverse=True)`). -/
def sortByCountDesc (m : List (String × Nat)) : List (String × Nat) :=
  m.foldr insertByCountDesc []

/-- `Counter.most_common(n)`: the `n` entries of largest count, ties in
insertion order. -/
def mostCommon (m : List (String × Nat)) (n : Nat) : List (String × Nat) :=
  (sortByCountDesc m).take n

/-- Loop body of `DashboardService._analyze_categories`
(`dashboard_service.py` lines 196-200): count
`metadata.get("category", "Unknown").strip()`, skipping the record when
the stripped category is empty (falsy). -/
def categoryStep (categories : List (String × Nat)) (item : RecordData) :
    List (String × Nat) :=
  let category := pyStrip (item.metadata.category.getD "Unknown")
  if category ≠ "" then incrCount categories category else categories

/-- Embedding of `DashboardService._analyze_categories`
(`dashboard_service.py` lines 192-202). -/
def analyzeCategories (problemData : List RecordData) : List (String × Nat) :=
  problemData.foldl categoryStep []

/-- Loop body of `DashboardService._analyze_organizations`
(`dashboard_service.py` lines 208-212), same shape as the category step. -/
def organizationStep (organizations : List (String × Nat)) (item : RecordData) :
    List (String × Nat) :=
  let organization := pyStrip (item.metadata.organization.getD "Unknown")
  if organization ≠ "" then incrCount organizations organization else organizations

/-- Embedding of `DashboardService._analyze_organizations`
(`dashboard_service.py` lines 204-214). -/
def analyzeOrganizations (problemData : List RecordData) : List (String × Nat) :=
  problemData.foldl organizationStep []

/-- The stop-word set of `DashboardService.__init__`
(`dashboard_service.py` lines 41-50). -/
def stopWords : List String :=
  ["the", "a", "an", "and", "or", "but", "in", "on", "at", "to", "for", "of", "with",
   "by", "from", "up", "about", "into", "through", "during", "before", "after",
   "above", "below", "between", "among", "is", "are", "was", "were", "be", "been",
   "being", "have", "has", "had", "do", "does", "did", "will", "would", "could",
   "should", "may", "might", "must", "can", "this", "that", "these", "those",
   "i", "you", "he", "she", "it", "we", "they", "me", "him", "her", "us", "them",
   "my", "your", "his", "its", "our", "their", "system", "using", "based",
   "develop", "create", "build", "implement", "application", "platform", "solution"]

/-- Maximal runs of ASCII letters in a string — the matches of the regex
pattern for word characters used by `_extract_keywords_from_text`. -/
def alphaRuns (s : String) : List String :=
  let step : Char → List Char × List String → List Char × List String :=
    fun c acc =>
      if c.isAlpha then (c :: acc.1, acc.2)
      else if acc.1 = [] then acc else ([], String.mk acc.1 :: acc.2)
  let r := s.toList.foldr step ([], [])
  if r.1 = [] then r.2 else String.mk r.1 :: r.2

/-- Embedding of `DashboardService._extract_keywords_from_text`
(`dashboard_service.py` lines 99-113): lowercase, take alphabetic words,
drop stop words and words shorter than `minLength`. -/
def extractKeywordsFromText (text : String) (minLength : Nat) : List String :=
  if text = "" then []
  else
    (alphaRuns (pyLower text)).filter
      (fun word => decide (minLength ≤ word.length) && !(decide (word ∈ stopWords)))

/-- The technology-name normalization table of `_extract_tech_keywords`
(`dashboard_service.py` lines 127-149). -/
def techMapping : List (String × String) :=
  [("js", "javascript"), ("ts", "typescript"), ("py", "python"),
   ("react.js", "react"), ("vue.js", "vue"), ("node.js", "nodejs"),
   ("express.js", "express"), ("next.js", "nextjs"),
   ("tensorflow", "tensorflow"), ("pytorch", "pytorch"),
   ("scikit-learn", "sklearn"), ("opencv", "opencv"),
   ("postgresql", "postgres"), ("mongodb", "mongo"), ("mysql", "mysql"),
   ("redis", "redis"), ("docker", "docker"), ("kubernetes", "k8s"),
   ("aws", "aws"), ("azure", "azure"), ("gcp", "gcp")]

/-- Embedding of `DashboardService._extract_tech_keywords`
(`dashboard_service.py` lines 115-154): skip falsy entries, lowercase and
strip, normalize through the mapping table. -/
def extractTechKeywords (techStack : List String) : List String :=
  techStack.foldl
    (fun acc tech =>
      if tech = "" then acc
      else
        let techLower := pyStrip (pyLower tech)
        acc ++ [(lookupStr techLower techMapping).getD techLower])
    []

/-- The parsed technology stack used by the keyword analysis
(`dashboard_service.py` lines 241-245): `metadata.get("technology_stack", "[]")`
run through the guarded `json.loads` (absent key parses the default to the
empty list). -/
def dashboardTechStack (metadata : Metadata) : List String :=
  match metadata.technology_stack with
  | none => []
  | some .falsy => []
  | some .parseError => []
  | some (.strList l) => l

/-- Embedding of `DashboardService._analyze_keywords`
(`dashboard_service.py` lines 216-263): count text keywords from title and
document-derived description, count normalized tech keywords, combine with
tech keywords weighted twice, return the `topN` most common. -/
def analyzeKeywords (problemData : List RecordData) (topN : Nat) :
    List (String × Nat) :=
  let counters :=
    problemData.foldl
      (fun acc item =>
        let title := item.metadata.title.getD ""
        let descriptionText :=
          if item.document ≠ "" then
            let lines := pySplitChar item.document '\n'
            if 2 ≤ lines.length then (lines.get? 1).getD "" else ""
          else ""
        let combinedText := title ++ " " ++ descriptionText
        let textKeywords := extractKeywordsFromText combinedText 3
        let allKeywords := textKeywords.foldl incrCount acc.1
        let techStack := dashboardTechStack item.metadata
        let techKeywords :=
          if techStack ≠ [] then
            (extractTechKeywords techStack).foldl incrCount acc.2
          else acc.2
        (allKeywords, techKeywords))
      ([], [])
  let combinedKeywords :=
    counters.2.foldl (fun m p => addCount m p.1 (p.2 * 2)) counters.1
  mostCommon combinedKeywords topN

/-- DashboardStats model (`app/models.py`): category histogram, top
keywords, top organizations, total count. -/
structure DashboardStats where
  categories : List (String × Nat)
  top_keywords : List (String × Nat)
  top_organizations : List (String × Nat)
  total_problems : Nat
deriving DecidableEq

/-- Embedding of `DashboardService._generate_dashboard_stats`
(`dashboard_service.py` lines 265-290). -/
def generateDashboardStats (problemData : List RecordData) : DashboardStats :=
  let categories := analyzeCategories problemData
  let allOrganizations := analyzeOrganizations problemData
  let topOrganizations := mostCommon allOrganizations 10
  let topKeywords := analyzeKeywords problemData 30
  { categories := categories
    top_keywords := topKeywords
    top_organizations := topOrganizations
    total_problems := problemData.length }

/-- The dashboard cache: the optional `"stats"` entry of `self._cache` and
the optional `self._cache_timestamp`, with time in minutes as a rational. -/
structure DashCache where
  stats : Option DashboardStats
  timestamp : Option ℚ
deriving DecidableEq

/-- The 15-minute cache TTL (`dashboard_service.py` line 38). -/
def cacheTTL : ℚ := 15

/-- Embedding of `DashboardService._is_cache_valid`
(`dashboard_service.py` lines 93-97). -/
def isCacheValid (now : ℚ) (c : DashCache) : Bool :=
  match c.timestamp with
  | none => false
  | some t => decide (now - t < cacheTTL)

/-- The empty statistics returned when the catalog fetch yields no records
(`dashboard_service.py` lines 321-326). -/
def emptyDashboardStats : DashboardStats :=
  { categories := [], top_keywords := [], top_organizations := [], total_problems := 0 }

/-- The non-cache path of `DashboardService.get_dashboard_stats`
(`dashboard_service.py` lines 314-336): returns empty statistics without
touching the cache when the fetch produced no records, otherwise generates
statistics and stores them with a fresh timestamp. -/
def getDashboardStatsFresh (now : ℚ) (problemData : List RecordData)
    (c : DashCache) : DashboardStats × DashCache :=
  if problemData.isEmpty then (emptyDashboardStats, c)
  else
    let stats := generateDashboardStats problemData
    (stats, { stats := some stats, timestamp := some now })

/-- Embedding of `DashboardService.get_dashboard_stats`
(`dashboard_service.py` lines 292-340).  `problemData` is the record list
that `_fetch_all_problem_data` would return.  The cached snapshot is served
when `force_refresh` is false, the cache is valid and a `"stats"` entry
exists; otherwise the fresh path runs. -/
def getDashboardStats (now : ℚ) (problemData : List RecordData)
    (forceRefresh : Bool) (c : DashCache) : DashboardStats × DashCache :=
  match c.stats, forceRefresh, isCacheValid now c with
  | some s, false, true => (s, c)
  | _, _, _ => getDashboardStatsFresh now problemData c

/-- Round half to even to the nearest integer — the tie-breaking rule of
Python's built-in `round` (floats modelled as exact rationals). -/
def pyRoundHalfEven (q : ℚ) : ℤ :=
  let f := ⌊q⌋
  if q - f < 1 / 2 then f
  else if 1 / 2 < q - f then f + 1
  else if f % 2 = 0 then f else f + 1

/-- Python's `round(q, 1)`. -/
def pyRound1 (q : ℚ) : ℚ :=
  (pyRoundHalfEven (q * 10) : ℚ) / 10

/-- One entry of the category breakdown (`dashboard_service.py`
lines 353-356). -/
structure CategoryEntry where
  count : Nat
  percentage : ℚ
deriving DecidableEq

/-- Result shape of `get_category_breakdown`. -/
structure CategoryBreakdown where
  categories : List (String × CategoryEntry)
  total : Nat
deriving DecidableEq

/-- Embedding of `DashboardService.get_category_breakdown`
(`dashboard_service.py` lines 342-361) as a function of the statistics
snapshot returned by `get_dashboard_stats`: `{categories: {}, total: 0}`
when the total is zero, otherwise per-category count and
`round((count / total) * 100, 1)`. -/
def getCategoryBreakdown (stats : DashboardStats) : CategoryBreakdown :=
  let total := stats.total_problems
  if total = 0 then { categories := [], total := 0 }
  else
    { categories :=
        stats.categories.map fun p =>
          (p.1, { count := p.2
                  percentage := pyRound1 (((p.2 : ℚ) / (total : ℚ)) * 100) })
      total := total }

/-- Repository model (`app/models.py`). -/
structure Repository where
  name : String
  description : Option String
  topics : List String
  readme_content : Option String
  language : Option String
deriving DecidableEq

/-- GitHubProfile model (`app/models.py`).  `repositories` is in the order
the GitHub API returned them (sorted by most recent update). -/
structure GitHubProfile where
  username : String
  repositories : List Repository
  tech_stack : List String
deriving DecidableEq

/-- Python `list(set(xs))` for strings: deduplication.  Set iteration
order is implementation defined; it is modelled as first-occurrence order. -/
def pySetList (l : List String) : List String :=
  l.foldl (fun acc t => if t ∈ acc then acc else acc ++ [t]) []

/-- The `repo_descriptions` list of `generate_github_dna`
(`github_service.py` lines 250-253): `"name: description"` for each of the
first 10 repositories whose description is truthy. -/
def repoDescriptions (profile : GitHubProfile) : List String :=
  (profile.repositories.take 10).foldl
    (fun acc repo =>
      match repo.description with
      | some d => if d ≠ "" then acc ++ [repo.name ++ ": " ++ d] else acc
      | none => acc)
    []

/-- The `all_topics` list of `generate_github_dna` (`github_service.py`
lines 259-261): topics of all repositories, concatenated. -/
def allTopics (profile : GitHubProfile) : List String :=
  profile.repositories.foldl (fun acc repo => acc ++ repo.topics) []

/-- The `readme_snippets` list of `generate_github_dna`
(`github_service.py` lines 268-275): for each of the first 5 repositories
with a truthy README, the first two period-separated sentences whose
trimmed length exceeds 20 characters, trimmed. -/
def readmeSnippets (profile : GitHubProfile) : List String :=
  (profile.repositories.take 5).foldl
    (fun acc repo =>
      match repo.readme_content with
      | some rc =>
        if rc ≠ "" then
          let sentences := (pySplitChar rc '.').take 2
          let cleanSentences :=
            (sentences.map pyStrip).filter fun s => decide (20 < s.length)
          acc ++ cleanSentences
        else acc
      | none => acc)
    []

/-- Embedding of `GitHubService.generate_github_dna` (`github_service.py`
lines 233-280): concatenate, with separator `" | "` and omitting empty
sections, the Technologies, Projects, Interests and Project-details
sections; the last joins only the first 3 README snippets. -/
def generateGithubDna (profile : GitHubProfile) : String :=
  let dnaParts : List String := []
  let dnaParts :=
    if profile.tech_stack ≠ [] then
      dnaParts ++ ["Technologies: " ++ String.intercalate ", " (profile.tech_stack.take 10)]
    else dnaParts
  let dnaParts :=
    if repoDescriptions profile ≠ [] then
      dnaParts ++ ["Projects: " ++ String.intercalate "; " (repoDescriptions profile)]
    else dnaParts
  let dnaParts :=
    if allTopics profile ≠ [] then
      dnaParts ++ ["Interests: " ++ String.intercalate ", " ((pySetList (allTopics profile)).take 15)]
    else dnaParts
  let dnaParts :=
    if readmeSnippets profile ≠ [] then
      dnaParts ++ ["Project details: " ++ String.intercalate ". " ((readmeSnippets profile).take 3)]
    else dnaParts
  String.intercalate " | " dnaParts

/-- Modelled from the spec: the profile-document builder as the spec
describes it, for refinement comparison with `generateGithubDna`.  It
differs from the source only in section (4): the spec's words join the
qualifying first-two sentences of the READMEs of up to 5 repositories with
no further cap, while the source joins only the first 3 snippets. -/
def generateGithubDnaSpec (profile : GitHubProfile) : String :=
  let dnaParts : List String := []
  let dnaParts :=
    if profile.tech_stack ≠ [] then
      dnaParts ++ ["Technologies: " ++ String.intercalate ", " (profile.tech_stack.take 10)]
    else dnaParts
  let dnaParts :=
    if repoDescriptions profile ≠ [] then
      dnaParts ++ ["Projects: " ++ String.intercalate "; " (repoDescriptions profile)]
    else dnaParts
  let dnaParts :=
    if allTopics profile ≠ [] then
      dnaParts ++ ["Interests: " ++ String.intercalate ", " ((pySetList (allTopics profile)).take 15)]
    else dnaParts
  let dnaParts :=
    if readmeSnippets profile ≠ [] then
      dnaParts ++ ["Project details: " ++ String.intercalate ". " (readmeSnippets profile)]
    else dnaParts
  String.intercalate " | " dnaParts

/-- The optional section contents of the profile document, stated
section-by-section (amended reading: section (4) is capped at the first 3
qualifying snippets).  Used to state the structure theorem for
`generateGithubDna`. -/
def dnaSections (profile : GitHubProfile) : List (Option String) :=
  [if profile.tech_stack ≠ [] then
     some ("Technologies: " ++ String.intercalate ", " (profile.tech_stack.take 10))
   else none,
   if repoDescriptions profile ≠ [] then
     some ("Projects: " ++ String.intercalate "; " (repoDescriptions profile))
   else none,
   if allTopics profile ≠ [] then
     some ("Interests: " ++ String.intercalate ", " ((pySetList (allTopics profile)).take 15))
   else none,
   if readmeSnippets profile ≠ [] then
     some ("Project details: " ++ String.intercalate ". " ((readmeSnippets profile).take 3))
   else none]

/-- An HTTP error raised by the GitHub router layer
(`fastapi.HTTPException`). -/
structure HTTPError where
  status_code : Nat
  detail : String
deriving DecidableEq

/-- Embedding of the part of `GitHubService.get_recommendations`
(`github_service.py` lines 282-310) that follows profile retrieval:
generate the GitHub DNA document, raise a 400 HTTPException when it strips
to the empty string, otherwise call the search service with the document
and `limit=20` and return its result list unchanged.  `searchFn` models
`search_service.search`. -/
def getRecommendations (searchFn : String → Nat → List SearchResult)
    (profile : GitHubProfile) : Except HTTPError (List SearchResult) :=
  let githubDna := generateGithubDna profile
  if pyStrip githubDna = "" then
    .error { status_code := 400
             detail := "Unable to generate recommendations: insufficient repository data" }
  else
    .ok (searchFn githubDna 20)

/-- Metadata with every key absent, used as a base for concrete inputs. -/
def emptyMetadata : Metadata :=
  { title := none, organization := none, category := none, description := none,
    technology_stack := none, difficulty_level := none, created_at := none }

/-- Metadata whose `created_at` value is present, truthy and rejected by
`datetime.fromisoformat`: the extraction raises and the mapper falls back. -/
def malformedDateMetadata : Metadata :=
  { emptyMetadata with created_at := some { raw := "not-a-date", parses := false } }

/-- Metadata whose `technology_stack` value makes `json.loads` raise. -/
def parseErrorMetadata : Metadata :=
  { emptyMetadata with technology_stack := some TechStackField.parseError }

/-- A hit whose metadata makes the mapper fall back (distance 1/2). -/
def badHit : Hit :=
  { id := "bad", metadata := malformedDateMetadata, document := "doc", distance := 1 / 2 }

/-- A hit that converts normally (distance 3/5). -/
def goodHit : Hit :=
  { id := "good", metadata := emptyMetadata, document := "doc", distance := 3 / 5 }

/-- A store response placing the malformed hit nearer than the good one
(distances ascending). -/
def mixedStore : String → Nat → List Hit :=
  fun _ _ => [badHit, goodHit]

/-- A store respecting the requested result cap. -/
def cappedStore : String → Nat → List Hit :=
  fun _ n => List.take n [goodHit]

/-- A catalog record whose `category` metadata value is present but empty:
the category analysis drops it. -/
def blankCategoryRecord : RecordData :=
  { id := "r1", metadata := { emptyMetadata with category := some "" }, document := "" }

/-- A catalog record with an ordinary category. -/
def softwareRecord : RecordData :=
  { id := "r2", metadata := { emptyMetadata with category := some "Software" },
    document := "" }

/-- Statistics snapshot of the spec's end-to-end example: 4 records over
categories Software, IoT and Blockchain. -/
def exampleStats : DashboardStats :=
  { categories := [("Software", 2), ("IoT", 1), ("Blockchain", 1)],
    top_keywords := [], top_organizations := [], total_problems := 4 }

/-- A cache with no stored snapshot and no timestamp. -/
def emptyCache : DashCache :=
  { stats := none, timestamp := none }

/-- A repository whose README yields two qualifying sentences. -/
def repoOne : Repository :=
  { name := "alpha", description := none, topics := [],
    readme_content := some "This project implements a compiler. It has a parser and a typechecker",
    language := none }

/-- A second repository whose README yields two more qualifying sentences. -/
def repoTwo : Repository :=
  { name := "beta", description := none, topics := [],
    readme_content := some "This tool analyzes genomic sequences. It supports long read alignments",
    language := none }

/-- A profile whose READMEs yield four qualifying sentences in total. -/
def snippetProfile : GitHubProfile :=
  { username := "octocat", repositories := [repoOne, repoTwo], tech_stack := [] }

/-- A profile with no repositories and no tech stack: its profile document
is empty. -/
def emptyProfile : GitHubProfile :=
  { username := "u", repositories := [], tech_stack := [] }

/-- A profile whose tech stack alone yields a non-empty profile document. -/
def techProfile : GitHubProfile :=
  { username := "u", repositories := [], tech_stack := ["python"] }

/-- A search function used to exercise the recommendation gate. -/
def constSearch : String → Nat → List SearchResult :=
  fun _ _ => []

/-- Whether a record survives the category analysis: its category value
(defaulted to "Unknown" when absent) strips to a non-empty string. -/
def categoryKept (r : RecordData) : Bool :=
  pyStrip (r.metadata.category.getD "Unknown") ≠ ""

theorem addCount_snd_sum (m : List (String × Nat)) (k : String) (n : Nat) :
    ((addCount m k n).map Prod.snd).sum = (m.map Prod.snd).sum + n := by
  induction m with
  | nil => simp [addCount]
  | cons p rest ih =>
    obtain ⟨k', v⟩ := p
    by_cases hk : k' = k
    · simp [addCount, hk]
      omega
    · simp [addCount, hk, ih]
      omega

/-- C2: for a record that converts normally, the Result Mapper computes
`similarity_score = max(0, 1 - distance)`, which lies in `[0, 1]` for any
cosine distance in `[0, 2]`; in particular distance 0.2 yields 0.8 and
distance 1.5 yields 0.0. -/
theorem mapper_similarity_conversion (docId : String) (metadata : Metadata)
    (document : String) (distance : ℚ)
    (hm : extractionRaises metadata = false)
    (h0 : 0 ≤ distance) (h2 : distance ≤ 2) :
    (convertMetadataToProblem docId metadata document distance).similarity_score
        = max 0 (1 - distance) ∧
    0 ≤ (convertMetadataToProblem docId metadata document distance).similarity_score ∧
    (convertMetadataToProblem docId metadata document distance).similarity_score ≤ 1 ∧
    similarityFromDistance (2 / 10) = 8 / 10 ∧
    similarityFromDistance (15 / 10) = 0 := by
  have hs : (convertMetadataToProblem docId metadata document distance).similarity_score
      = max 0 (1 - distance) := by
    simp [convertMetadataToProblem, hm, similarityFromDistance]
  refine ⟨hs, ?_, ?_, ?_, ?_⟩
  · rw [hs]; exact le_max_left 0 (1 - distance)
  · rw [hs]
    exact max_le (by norm_num) (by linarith)
  · rw [similarityFromDistance, max_eq_right (by norm_num : (0:ℚ) ≤ 1 - 2 / 10)]
    norm_num
  · rw [similarityFromDistance, max_eq_left (by norm_num : (1:ℚ) - 15 / 10 ≤ 0)]

/-- Witness for `mapper_similarity_conversion` at metadata with no keys and
distance 0.2. -/
theorem mapper_similarity_conversion_witness :
    extractionRaises emptyMetadata = false ∧ (0:ℚ) ≤ 2 / 10 ∧ (2:ℚ) / 10 ≤ 2 ∧
    (convertMetadataToProblem "p1" emptyMetadata "doc" (2 / 10)).similarity_score
      = max 0 (1 - 2 / 10) :=
  ⟨by decide, by norm_num, by norm_num,
   (mapper_similarity_conversion "p1" emptyMetadata "doc" (2 / 10) (by decide)
     (by norm_num) (by norm_num)).1⟩

/-- C3 counterexample: on a record whose extraction raises (malformed
`created_at`) and distance 0.2, the fallback keeps the raw document text
as description but forces `similarity_score` to 0.0, not to the
claim's distance-implied value `max(0, 1 - 0.2) = 0.8`. -/
theorem mapper_fallback_similarity_counterexample :
    (convertMetadataToProblem "p1" malformedDateMetadata "raw document text" (2 / 10)).similarity_score = 0 ∧
    (convertMetadataToProblem "p1" malformedDateMetadata "raw document text" (2 / 10)).problem.description
      = "raw document text" ∧
    max (0:ℚ) (1 - 2 / 10) = 8 / 10 ∧
    (0:ℚ) ≠ 8 / 10 := by
  refine ⟨?_, ?_, ?_, by norm_num⟩
  · simp [convertMetadataToProblem, extractionRaises, malformedDateMetadata, emptyMetadata]
  · simp [convertMetadataToProblem, extractionRaises, malformedDateMetadata, emptyMetadata]
  · rw [max_eq_right (by norm_num : (0:ℚ) ≤ 1 - 2 / 10)]; norm_num

/-- C3 amended: on any input whose extraction raises, the mapper returns
the minimal fallback record — raw document text as description, empty
technology stack — with `similarity_score = 0.0` regardless of the
distance; no error propagates (the mapper is total). -/
theorem mapper_fallback_minimal_record (docId : String) (metadata : Metadata)
    (document : String) (distance : ℚ)
    (h : extractionRaises metadata = true) :
    (convertMetadataToProblem docId metadata document distance).problem.description = document ∧
    (convertMetadataToProblem docId metadata document distance).problem.technology_stack = [] ∧
    (convertMetadataToProblem docId metadata document distance).similarity_score = 0 := by
  by_cases hd : document = "" <;> simp [convertMetadataToProblem, h, hd]

/-- Witness for `mapper_fallback_minimal_record` at a malformed
`created_at` value. -/
theorem mapper_fallback_minimal_record_witness :
    extractionRaises malformedDateMetadata = true ∧
    (convertMetadataToProblem "p1" malformedDateMetadata "raw document text" (2 / 10)).similarity_score = 0 :=
  ⟨by decide,
   (mapper_fallback_minimal_record "p1" malformedDateMetadata "raw document text" (2 / 10)
     (by decide)).2.2⟩

/-- C8: when the stored `technology_stack` value makes `json.loads` raise
(`JSONDecodeError` for unparsable JSON, `TypeError` for a wrong-typed
value), the mapped result's `technology_stack` is the empty list, and the
mapper still returns a result (it is a total function, so no exception
escapes). -/
theorem mapper_malformed_tech_stack (docId : String) (metadata : Metadata)
    (document : String) (distance : ℚ)
    (h : metadata.technology_stack = some TechStackField.parseError) :
    (convertMetadataToProblem docId metadata document distance).problem.technology_stack = [] := by
  cases hr : extractionRaises metadata <;>
    simp [convertMetadataToProblem, hr, h]

/-- Witness for `mapper_malformed_tech_stack`. -/
theorem mapper_malformed_tech_stack_witness :
    parseErrorMetadata.technology_stack = some TechStackField.parseError ∧
    (convertMetadataToProblem "p1" parseErrorMetadata "doc" (2 / 10)).problem.technology_stack = [] :=
  ⟨rfl, mapper_malformed_tech_stack "p1" parseErrorMetadata "doc" (2 / 10) rfl⟩

/-- C1 counterexample: with a store returning hits in ascending distance
order (1/2 then 3/5) whose first hit has malformed metadata, the returned
scores are [0, 2/5] — not non-increasing, because the fallback forces the
first score to 0.  The order of the hits is still preserved. -/
theorem search_not_similarity_sorted_counterexample :
    badHit.distance ≤ goodHit.distance ∧
    (searchRun mixedStore "query" 20).map SearchResult.similarity_score = [0, 2 / 5] ∧
    ¬ (searchRun mixedStore "query" 20).Pairwise
        (fun a b => b.similarity_score ≤ a.similarity_score) := by
  have hbad : (convertMetadataToProblem "bad" malformedDateMetadata "doc" (1 / 2)).similarity_score = 0 := by
    simp [convertMetadataToProblem, extractionRaises, malformedDateMetadata, emptyMetadata]
  have hgood : (convertMetadataToProblem "good" emptyMetadata "doc" (3 / 5)).similarity_score = 2 / 5 := by
    simp [convertMetadataToProblem, extractionRaises, emptyMetadata, similarityFromDistance]
    rw [max_eq_right (by norm_num : (0:ℚ) ≤ 1 - 3 / 5)]
    norm_num
  have hrun : searchRun mixedStore "query" 20
      = [convertMetadataToProblem "bad" malformedDateMetadata "doc" (1 / 2),
         convertMetadataToProblem "good" emptyMetadata "doc" (3 / 5)] := by
    simp [searchRun, mixedStore, badHit, goodHit]
  refine ⟨by norm_num [badHit, goodHit], ?_, ?_⟩
  · rw [hrun]
    simp only [List.map_cons, List.map_nil, hbad, hgood]
  · rw [hrun]
    intro hp
    have hle := (List.pairwise_cons.mp hp).1 _ (List.mem_cons_self _ _)
    rw [hbad, hgood] at hle
    norm_num at hle

/-- C1 amended: provided the vector store honors its result cap, `search`
returns at most `min(limit, 100)` results and is exactly the in-order image
of the store's hit list under the Result Mapper (no reordering); and when
the hits come back in ascending distance order and every hit converts
without the fallback path, the similarity scores are non-increasing. -/
theorem search_cap_and_order_preserved (queryStore : String → Nat → List Hit)
    (query : String) (limit : Nat)
    (hcap : ∀ q n, (queryStore q n).length ≤ n) :
    (searchRun queryStore query limit).length ≤ min limit 100 ∧
    searchRun queryStore query limit
      = (queryStore query (min limit 100)).map (fun h =>
          convertMetadataToProblem h.id h.metadata h.document h.distance) ∧
    ((queryStore query (min limit 100)).Pairwise (fun a b => a.distance ≤ b.distance) →
      (∀ h ∈ queryStore query (min limit 100), extractionRaises h.metadata = false) →
      (searchRun queryStore query limit).Pairwise
        (fun a b => b.similarity_score ≤ a.similarity_score)) := by
  refine ⟨?_, rfl, ?_⟩
  · simpa [searchRun] using hcap query (min limit 100)
  · intro hsorted hok
    unfold searchRun
    rw [List.pairwise_map]
    refine List.Pairwise.imp_of_mem ?_ hsorted
    intro a b ha hb hab
    have hsa := hok a ha
    have hsb := hok b hb
    simp only [convertMetadataToProblem, hsa, hsb, Bool.false_eq_true, if_false,
      similarityFromDistance]
    exact max_le_max le_rfl (by linarith)

/-- Witness for `search_cap_and_order_preserved` with a store that returns
at most the requested number of hits. -/
theorem search_cap_and_order_preserved_witness :
    (searchRun cappedStore "query" 20).length ≤ min 20 100 ∧
    searchRun cappedStore "query" 20
      = (cappedStore "query" (min 20 100)).map (fun h =>
          convertMetadataToProblem h.id h.metadata h.document h.distance) := by
  have h := search_cap_and_order_preserved cappedStore "query" 20
    (fun q n => by simpa [cappedStore] using List.length_take_le n [goodHit])
  exact ⟨h.1, h.2.1⟩

/-- C9: once `initialize()` has returned successfully, every further call
— under any environment — is a no-op: the state (including the counts of
model loads and store connections) is unchanged and no error is raised. -/
theorem initialize_idempotent_after_success
    (loadOk connectOk loadOk2 connectOk2 : Bool) (s s1 : SearchServiceState)
    (h : initializeService loadOk connectOk s = (s1, none)) :
    initializeService loadOk2 connectOk2 s1 = (s1, none) ∧
    (initializeService loadOk2 connectOk2 s1).1.modelLoads = s1.modelLoads ∧
    (initializeService loadOk2 connectOk2 s1).1.storeConnections = s1.storeConnections := by
  have h1 : s1.initialized = true := by
    by_cases hi : s.initialized
    · simp [initializeService, hi] at h
      rw [← h]
      exact hi
    · cases loadOk
      · simp [initializeService, hi] at h
      · cases connectOk
        · simp [initializeService, hi] at h
        · simp [initializeService, hi] at h
          rw [← h]
  refine ⟨by simp [initializeService, h1], ?_, ?_⟩ <;>
    simp [initializeService, h1]

/-- Witness for `initialize_idempotent_after_success`: a successful first
call from the fresh state, then a second call. -/
theorem initialize_idempotent_after_success_witness :
    initializeService true true { initialized := false, modelLoads := 0, storeConnections := 0 }
      = ({ initialized := true, modelLoads := 1, storeConnections := 1 }, none) ∧
    initializeService true true { initialized := true, modelLoads := 1, storeConnections := 1 }
      = ({ initialized := true, modelLoads := 1, storeConnections := 1 }, none) :=
  ⟨rfl,
   (initialize_idempotent_after_success true true true true
     { initialized := false, modelLoads := 0, storeConnections := 0 }
     { initialized := true, modelLoads := 1, storeConnections := 1 } rfl).1⟩

theorem foldl_categoryStep_sum (problemData : List RecordData) :
    ∀ acc : List (String × Nat),
      ((problemData.foldl categoryStep acc).map Prod.snd).sum
        = (acc.map Prod.snd).sum + problemData.countP categoryKept := by
  induction problemData with
  | nil => intro acc; simp
  | cons r rest ih =>
    intro acc
    rw [List.foldl_cons, ih, List.countP_cons]
    by_cases hr : pyStrip (r.metadata.category.getD "Unknown") ≠ ""
    · have hkept : categoryKept r = true := by
        simp [categoryKept, hr]
      rw [hkept]
      simp only [categoryStep, if_pos hr, incrCount, addCount_snd_sum, if_true]
      omega
    · have hkept : categoryKept r = false := by
        simp [categoryKept] at hr ⊢
        exact hr
      rw [hkept]
      simp only [categoryStep, if_neg hr]
      simp

/-- C4 counterexample: a single record whose `category` metadata value is
present but empty is dropped by the category analysis — contrary to the
claim that a record is never dropped — so `total_problems = 1` while the
category counts sum to 0. -/
theorem category_histogram_drop_counterexample :
    (generateDashboardStats [blankCategoryRecord]).total_problems = 1 ∧
    (generateDashboardStats [blankCategoryRecord]).categories = [] ∧
    (((generateDashboardStats [blankCategoryRecord]).categories.map Prod.snd).sum = 0) := by
  refine ⟨by decide, by decide, by decide⟩

/-- C4 amended: each record whose `category` value (defaulted to "Unknown"
when the key is absent) strips to a non-empty string contributes exactly
one category; a record whose present category value strips to the empty
string is dropped.  Hence `total_problems` equals the sum of the category
counts whenever every record's (defaulted) category strips non-empty. -/
theorem total_problems_eq_category_sum (problemData : List RecordData)
    (h : ∀ r ∈ problemData, pyStrip (r.metadata.category.getD "Unknown") ≠ "") :
    ((generateDashboardStats problemData).categories.map Prod.snd).sum
      = (generateDashboardStats problemData).total_problems := by
  have hcat : (generateDashboardStats problemData).categories
      = analyzeCategories problemData := rfl
  have htot : (generateDashboardStats problemData).total_problems
      = problemData.length := rfl
  rw [hcat, htot, analyzeCategories, foldl_categoryStep_sum problemData []]
  simp only [List.map_nil, List.sum_nil, Nat.zero_add]
  exact List.countP_eq_length.mpr fun r hr => by
    simp [categoryKept, h r hr]

/-- Witness for `total_problems_eq_category_sum` on a one-record catalog
with category "Software". -/
theorem total_problems_eq_category_sum_witness :
    (∀ r ∈ [softwareRecord], pyStrip (r.metadata.category.getD "Unknown") ≠ "") ∧
    ((generateDashboardStats [softwareRecord]).categories.map Prod.snd).sum
      = (generateDashboardStats [softwareRecord]).total_problems :=
  ⟨by decide, total_problems_eq_category_sum [softwareRecord] (by decide)⟩

/-- C5: the category breakdown returns `{categories: {}, total: 0}` when
the snapshot's total is zero (no division is attempted); when the total is
positive, it returns the snapshot's total and, for each category, its count
together with `round(100 * count / total, 1)` as percentage. -/
theorem category_breakdown_correct (stats : DashboardStats) :
    (stats.total_problems = 0 →
      getCategoryBreakdown stats = { categories := [], total := 0 }) ∧
    (stats.total_problems ≠ 0 →
      (getCategoryBreakdown stats).total = stats.total_problems ∧
      (getCategoryBreakdown stats).categories
        = stats.categories.map fun p =>
            (p.1, { count := p.2
                    percentage :=
                      pyRound1 (100 * (p.2 : ℚ) / (stats.total_problems : ℚ)) })) := by
  constructor
  · intro h
    simp [getCategoryBreakdown, h]
  · intro h
    have harg : ∀ p : String × Nat,
        ((p.2 : ℚ) / (stats.total_problems : ℚ)) * 100
          = 100 * (p.2 : ℚ) / (stats.total_problems : ℚ) := by
      intro p; ring
    constructor
    · simp [getCategoryBreakdown, h]
    · simp only [getCategoryBreakdown, if_neg h]
      exact List.map_congr_left fun p _ => by rw [harg p]

/-- Witness for `category_breakdown_correct` on the spec's end-to-end
example snapshot (4 records: Software 2, IoT 1, Blockchain 1) and on a
zero-total snapshot. -/
theorem category_breakdown_correct_witness :
    getCategoryBreakdown exampleStats
      = { categories :=
            [("Software", { count := 2, percentage := 50 }),
             ("IoT", { count := 1, percentage := 25 }),
             ("Blockchain", { count := 1, percentage := 25 })],
          total := 4 } ∧
    getCategoryBreakdown (DashboardStats.mk [] [] [] 0)
      = { categories := [], total := 0 } := by
  constructor
  · have h := (category_breakdown_correct exampleStats).2 (by norm_num [exampleStats])
    have hc := h.2
    have ht := h.1
    rw [show getCategoryBreakdown exampleStats
        = { categories := (getCategoryBreakdown exampleStats).categories,
            total := (getCategoryBreakdown exampleStats).total } from rfl, hc, ht]
    norm_num [exampleStats, pyRound1, pyRoundHalfEven]
  · exact (category_breakdown_correct _).1 rfl

/-- C10: when the catalog fetch returns no records and the cached snapshot
is not served (forced refresh, expired cache, or no cached entry),
`get_dashboard_stats` returns the all-empty statistics and leaves the
cache state — entry and timestamp — unchanged; and as long as no snapshot
is cached, every later call with an empty fetch again returns the empty
statistics without caching them, regardless of the TTL. -/
theorem empty_fetch_preserves_cache (now : ℚ) (forceRefresh : Bool) (c : DashCache)
    (hmiss : forceRefresh = true ∨ isCacheValid now c = false ∨ c.stats = none) :
    getDashboardStats now [] forceRefresh c = (emptyDashboardStats, c) ∧
    (c.stats = none →
      ∀ (now2 : ℚ) (forceRefresh2 : Bool),
        getDashboardStats now2 [] forceRefresh2 c = (emptyDashboardStats, c)) := by
  have hfresh : ∀ now' : ℚ, getDashboardStatsFresh now' [] c = (emptyDashboardStats, c) := by
    intro now'
    simp [getDashboardStatsFresh]
  constructor
  · rcases hmiss with hf | hv | hs
    · cases hstats : c.stats <;>
        simp [getDashboardStats, hf, hstats, hfresh]
    · cases hstats : c.stats <;> cases forceRefresh <;>
        simp [getDashboardStats, hv, hstats, hfresh]
    · cases forceRefresh <;> cases hv : isCacheValid now c <;>
        simp [getDashboardStats, hs, hv, hfresh]
  · intro hs now2 forceRefresh2
    cases forceRefresh2 <;> cases hv : isCacheValid now2 c <;>
      simp [getDashboardStats, hs, hv, hfresh]

/-- Witness for `empty_fetch_preserves_cache` on the empty cache. -/
theorem empty_fetch_preserves_cache_witness :
    getDashboardStats 0 [] false emptyCache = (emptyDashboardStats, emptyCache) ∧
    getDashboardStats 20 [] true emptyCache = (emptyDashboardStats, emptyCache) :=
  ⟨(empty_fetch_preserves_cache 0 false emptyCache (Or.inr (Or.inr rfl))).1,
   (empty_fetch_preserves_cache 0 false emptyCache (Or.inr (Or.inr rfl))).2 rfl 20 true⟩

/-- C6 counterexample: a profile whose two READMEs yield four qualifying
sentences.  The generated document joins only the first 3 snippets
(`readme_snippets[:3]`), while the claim's description — period-joined
qualifying first-two sentences from the READMEs of up to 5 repositories,
with no further cap — would include all four. -/
theorem github_dna_snippet_cap_counterexample :
    readmeSnippets snippetProfile
      = ["This project implements a compiler",
         "It has a parser and a typechecker",
         "This tool analyzes genomic sequences",
         "It supports long read alignments"] ∧
    generateGithubDna snippetProfile
      = "Project details: This project implements a compiler. It has a parser and a typechecker. This tool analyzes genomic sequences" ∧
    generateGithubDnaSpec snippetProfile
      = "Project details: This project implements a compiler. It has a parser and a typechecker. This tool analyzes genomic sequences. It supports long read alignments" ∧
    generateGithubDna snippetProfile ≠ generateGithubDnaSpec snippetProfile := by
  refine ⟨by decide, by decide, by decide, by decide⟩

/-- C6 amended: the profile document is deterministically the `" | "`-join
of the non-empty sections among, in fixed order: Technologies (comma-join
of the top-10 tech-stack entries), Projects (semicolon-join of
"name: description" over the first 10 repositories that have a non-empty
description), Interests (comma-join of up to 15 deduplicated topics across
all repositories) and Project details (period-join of the qualifying
first-two README sentences of up to 5 repositories, capped at the first 3
snippets overall); empty sections are omitted entirely. -/
theorem github_dna_structure (profile : GitHubProfile) :
    generateGithubDna profile
      = String.intercalate " | " ((dnaSections profile).filterMap id) := by
  unfold generateGithubDna dnaSections
  by_cases h1 : profile.tech_stack ≠ [] <;>
  by_cases h2 : repoDescriptions profile ≠ [] <;>
  by_cases h3 : allTopics profile ≠ [] <;>
  by_cases h4 : readmeSnippets profile ≠ [] <;>
  simp [h1, h2, h3, h4]

/-- C7: when the profile document strips to the empty string, the
recommendation call fails with the 400 "insufficient repository data"
error and is independent of the search service (no search call is made);
otherwise it returns exactly the search service's result for the profile
document with `limit = 20`. -/
theorem recommendations_gate (searchFn searchFn2 : String → Nat → List SearchResult)
    (profile : GitHubProfile) :
    (pyStrip (generateGithubDna profile) = "" →
      getRecommendations searchFn profile
        = Except.error { status_code := 400
                         detail := "Unable to generate recommendations: insufficient repository data" } ∧
      getRecommendations searchFn profile = getRecommendations searchFn2 profile) ∧
    (pyStrip (generateGithubDna profile) ≠ "" →
      getRecommendations searchFn profile
        = Except.ok (searchFn (generateGithubDna profile) 20)) := by
  constructor
  · intro h
    constructor <;> simp [getRecommendations, h]
  · intro h
    simp [getRecommendations, h]

/-- Witness for `recommendations_gate`: the empty profile fails with 400;
a profile with a tech stack delegates to the search function. -/
theorem recommendations_gate_witness :
    getRecommendations constSearch emptyProfile
      = Except.error { status_code := 400
                       detail := "Unable to generate recommendations: insufficient repository data" } ∧
    getRecommendations constSearch techProfile
      = Except.ok (constSearch (generateGithubDna techProfile) 20) :=
  ⟨((recommendations_gate constSearch constSearch emptyProfile).1 (by decide)).1,
   (recommendations_gate constSearch constSearch techProfile).2 (by decide)⟩
